import Mathlib

/-!
Shallow embedding of the vibe-app client-side data-access and form-state
layer (src/app/profile/page.tsx, src/lib/supabase.ts, and the fetch hooks
shown in the deployment-adjacent source), together with theorems settling
the frozen claims about it.

Conventions of the embedding:
- JavaScript string truthiness is modelled as inequality with "" and
  number truthiness as inequality with 0 (NaN is out of scope).
- Asynchronous gateway calls are modelled by passing the provider outcome
  in as a value; "the hosted backend" is a function argument.
- A `toast` is modelled as a Boolean or an emitted value in the result.
-/

namespace VibeApp

/-! ## Data model (interfaces at the top of src/app/profile/page.tsx) -/

/-- Row of the `categories` reference table. -/
structure Category where
  id : String
  name : String
deriving DecidableEq, Repr

/-- Row of the `subcategories` reference table. -/
structure Subcategory where
  id : String
  name : String
  category_id : String
deriving DecidableEq, Repr

/-- A draft service entry of the profile page (`interface Service`).
`id` is optional: present for rows loaded from the database, absent for
entries newly accumulated in the draft list. The numeric `rate` is
modelled as a rational. -/
structure Service where
  id : Option String
  category_id : String
  subcategory_id : String
  description : String
  rate : Rat
  currency : String
deriving DecidableEq, Repr

/-! ## Relational-store query semantics used by the fetches (PostgREST) -/

/-- Row of the `user` profile table as read by the profile page. -/
structure UserRow where
  id : String
  name : String
  email : String
  bio : String
deriving DecidableEq, Repr

/-- Errors a single-row fetch can surface. `noRows` models the PGRST116
error that `.single()` yields when zero rows match. -/
inductive DbError where
  | noRows
  | multipleRows
deriving DecidableEq, Repr

/-- The `.eq("id", userId)` filter on a table of user rows. -/
def eqId (rows : List UserRow) (userId : String) : List UserRow :=
  rows.filter (fun r => r.id == userId)

/-- Semantics of `.single()`: exactly one row expected; zero rows is an
error, more than one row is an error. -/
def singleRow (rows : List UserRow) : Option UserRow × Option DbError :=
  match rows with
  | [] => (none, some DbError.noRows)
  | [r] => (some r, none)
  | _ => (none, some DbError.multipleRows)

/-- Semantics of `.maybeSingle()`: zero rows yields null data and null
error; more than one row is an error. -/
def maybeSingleRow (rows : List UserRow) : Option UserRow × Option DbError :=
  match rows with
  | [] => (none, none)
  | [r] => (some r, none)
  | _ => (none, some DbError.multipleRows)

/-- `supabaseDb.getUser` (src/lib/supabase.ts, lines 63-70):
`from("users").select("*").eq("id", userId).single()`. -/
def getUser (table : List UserRow) (userId : String) : Option UserRow × Option DbError :=
  singleRow (eqId table userId)

/-- The profile page's own profile fetch (src/app/profile/page.tsx, lines
79-84): `from("user").select("*").eq("id", user.id).maybeSingle()`. -/
def profileFetch (table : List UserRow) (userId : String) : Option UserRow × Option DbError :=
  maybeSingleRow (eqId table userId)

/-- What the page stores into its name/email/bio state after a successful
profile fetch: `profileData?.name || ""` and likewise for the other two
fields (for a present row the JS `|| ""` still maps an empty-string field
to "", so reading the field directly is extensionally the same). -/
def profileFieldsAfterFetch (profileData : Option UserRow) : String × String × String :=
  (match profileData with | some r => r.name | none => "",
   match profileData with | some r => r.email | none => "",
   match profileData with | some r => r.bio | none => "")

/-! ## Database write operations issued by the profile page -/

/-- A write the profile page can issue against the `services` table. -/
inductive DbOp where
  | updateService (id : String) (category_id : String) (subcategory_id : String)
      (description : String) (rate : Rat) (currency : String)
  | insertService (user_id : String) (category_id : String) (subcategory_id : String)
      (description : String) (rate : Rat) (currency : String)
deriving DecidableEq, Repr

/-! ## addService (src/app/profile/page.tsx, lines 212-230) -/

/-- The blank draft the form is reset to after a successful add. -/
def emptyNewService : Service :=
  { id := none, category_id := "", subcategory_id := "", description := "",
    rate := 0, currency := "USD" }

/-- Result of one `addService` click: the draft list, the form state, and
whether the error toast was raised. `dbOps` records the database writes
issued by the handler; the source body contains no gateway call, so it is
empty on both paths. -/
structure AddServiceResult where
  services : List Service
  newService : Service
  errorToast : Bool
  dbOps : List DbOp
deriving DecidableEq, Repr

/-- `addService`: rejects (error toast, nothing else changes) when
`!category_id || !subcategory_id || !description || !rate`, i.e. when any
of the three strings is empty or the rate is zero; otherwise appends the
draft to the list and resets the form. -/
def addService (services : List Service) (newService : Service) : AddServiceResult :=
  if newService.category_id = "" ∨ newService.subcategory_id = "" ∨
      newService.description = "" ∨ newService.rate = 0 then
    { services := services, newService := newService, errorToast := true, dbOps := [] }
  else
    { services := services ++ [newService], newService := emptyNewService,
      errorToast := false, dbOps := [] }

/-- `getCategoryName` (lines 236-238): `categories.find(c => c.id ===
categoryId)?.name || ""`. -/
def getCategoryName (categories : List Category) (categoryId : String) : String :=
  match categories.find? (fun c => c.id == categoryId) with
  | some c => if c.name = "" then "" else c.name
  | none => ""

/-- `getSubcategoryName` (lines 240-242). -/
def getSubcategoryName (subcategories : List Subcategory) (subcategoryId : String) : String :=
  match subcategories.find? (fun s => s.id == subcategoryId) with
  | some s => if s.name = "" then "" else s.name
  | none => ""

/-! ## handleSaveServices (src/app/profile/page.tsx, lines 166-210) -/

/-- The body of the save loop: one iteration per draft entry, issuing an
update keyed on the id when present, otherwise an insert carrying the
acting user's id. `gw` is the gateway: `some msg` models a returned error
object, which the source immediately throws, aborting the loop. Returns
the list of issued operations and the thrown error, if any. -/
def runSaveLoop (gw : DbOp → Option String) (uid : String) :
    List Service → List DbOp × Option String
  | [] => ([], none)
  | s :: rest =>
    let op : DbOp :=
      match s.id with
      | some i => DbOp.updateService i s.category_id s.subcategory_id s.description s.rate s.currency
      | none => DbOp.insertService uid s.category_id s.subcategory_id s.description s.rate s.currency
    match gw op with
    | some err => ([op], some err)
    | none =>
      let r := runSaveLoop gw uid rest
      (op :: r.1, r.2)

/-- `handleSaveServices`: early return when there is no user; otherwise
run the save loop; a thrown error is caught and surfaced as an error
toast, success surfaces the success toast (second component `true`). -/
def handleSaveServices (gw : DbOp → Option String) (user : Option String)
    (services : List Service) : List DbOp × Bool :=
  match user with
  | none => ([], false)
  | some uid =>
    let r := runSaveLoop gw uid services
    match r.2 with
    | some _ => (r.1, false)
    | none => (r.1, true)

/-! ## handleSubmit (src/app/profile/page.tsx, lines 117-164) -/

/-- The `profileUpdates` payload: a field is present exactly when the
corresponding form string is truthy (non-empty). -/
structure ProfileUpdates where
  name : Option String
  email : Option String
  bio : Option String
deriving DecidableEq, Repr

/-- `profileUpdates` assembly (lines 124-128). -/
def buildProfileUpdates (name email bio : String) : ProfileUpdates :=
  { name := if name = "" then none else some name,
    email := if email = "" then none else some email,
    bio := if bio = "" then none else some bio }

/-- Payload of `supabase.auth.updateUser` (lines 140-143):
`email: email || undefined, data: name ? { name } : undefined`. -/
structure AuthUserUpdate where
  email : Option String
  name : Option String
deriving DecidableEq, Repr

/-- Observable outcome of a `handleSubmit` run in which every issued
gateway call succeeds. -/
structure HandleSubmitResult where
  dbUpdate : Option ProfileUpdates
  authUpdate : Option AuthUserUpdate
  successToast : Bool
  navigatedHome : Bool
deriving DecidableEq, Repr

/-- `handleSubmit` under succeeding gateway calls: early return without a
user; the database update is issued only when the payload has at least one
key (`Object.keys(profileUpdates).length > 0`); the auth update only when
additionally email or name is truthy; the success toast and the navigation
to "/" happen on every non-early-return path. -/
def handleSubmit (user : Option String) (name email bio : String) : HandleSubmitResult :=
  match user with
  | none => { dbUpdate := none, authUpdate := none, successToast := false, navigatedHome := false }
  | some _ =>
    let updates := buildProfileUpdates name email bio
    if updates.name = none ∧ updates.email = none ∧ updates.bio = none then
      { dbUpdate := none, authUpdate := none, successToast := true, navigatedHome := true }
    else
      let authUpd : Option AuthUserUpdate :=
        if email = "" ∧ name = "" then none
        else some { email := if email = "" then none else some email,
                    name := if name = "" then none else some name }
      { dbUpdate := some updates, authUpdate := authUpd,
        successToast := true, navigatedHome := true }

/-! ## Auth Gateway (src/lib/supabase.ts, lines 9-50) -/

/-- Error object of the auth provider. -/
structure AuthError where
  message : String
deriving DecidableEq, Repr

/-- Authenticated identity as returned by the provider. -/
structure AuthUser where
  id : String
  email : Option String
deriving DecidableEq, Repr

/-- Provider session object. -/
structure AuthSession where
  accessToken : String
deriving DecidableEq, Repr

/-- The `data` object of sign-up / sign-in / update-user responses. -/
structure AuthData where
  user : Option AuthUser
  session : Option AuthSession
deriving DecidableEq, Repr

/-- The `data` object of `auth.getUser()`: always an object carrying a
possibly-null user, which the wrapper destructures. -/
structure GetUserData where
  user : Option AuthUser
deriving DecidableEq, Repr

/-- The provider boundary per the external-interface contract: every auth
call resolves to a data/error pair; it does not reject, so each operation
is a total function. -/
structure AuthProvider where
  signUpWith : String → String → Option AuthData × Option AuthError
  signInWithPassword : String → String → Option AuthData × Option AuthError
  signOutSession : Option AuthError
  getUserData : GetUserData × Option AuthError
  updateUserMeta : Option String → Option AuthData × Option AuthError

namespace supabaseAuth

/-- `supabaseAuth.signUp`: pass email and password through and return the
provider's pair unchanged. -/
def signUp (p : AuthProvider) (email password : String) :
    Option AuthData × Option AuthError :=
  let r := p.signUpWith email password
  (r.1, r.2)

/-- `supabaseAuth.signIn`: pass-through of `signInWithPassword`. -/
def signIn (p : AuthProvider) (email password : String) :
    Option AuthData × Option AuthError :=
  let r := p.signInWithPassword email password
  (r.1, r.2)

/-- `supabaseAuth.signOut`: the source returns `{ error }` only; reading a
data component of that object yields nothing, modelled as `none`. -/
def signOut (p : AuthProvider) : Option AuthData × Option AuthError :=
  (none, p.signOutSession)

/-- `supabaseAuth.getCurrentUser`: destructures `data: { user }` and
returns `{ user, error }`. -/
def getCurrentUser (p : AuthProvider) : Option AuthUser × Option AuthError :=
  let r := p.getUserData
  (r.1.user, r.2)

/-- `supabaseAuth.updateProfile`: forwards the partial metadata update and
returns the provider's pair unchanged. -/
def updateProfile (p : AuthProvider) (updates : Option String) :
    Option AuthData × Option AuthError :=
  let r := p.updateUserMeta updates
  (r.1, r.2)

end supabaseAuth

/-! ## Reference-data fetch hooks (useServiceCategories /
useServiceSubcategories) -/

/-- Local state of `useServiceSubcategories`. -/
structure SubcatState where
  subCategories : List Subcategory
  loading : Bool
  error : Option String
deriving DecidableEq, Repr

/-- Outcome of the awaited `getServicesBySubcategory(categoryId)` call:
resolution with rows (possibly null, handled by `|| []`) or rejection with
a message. -/
inductive FetchOutcome where
  | success (rows : Option (List Subcategory))
  | failure (msg : String)
deriving Repr

/-- A `setState` call the subcategory hook can perform. -/
inductive SubcatWrite where
  | setReady (rows : List Subcategory)
  | setLoading
  | setError (msg : String)
deriving DecidableEq, Repr

/-- Semantics of each `setState` call of the subcategory hook. -/
def applySubcatWrite : SubcatWrite → SubcatState → SubcatState
  | SubcatWrite.setReady rows, _ =>
    { subCategories := rows, loading := false, error := none }
  | SubcatWrite.setLoading, s => { s with loading := true }
  | SubcatWrite.setError msg, _ =>
    { subCategories := [], loading := false, error := some msg }

/-- One run of the subcategory hook's effect body, split along its single
suspension point. `syncWrites` are the `setState` calls executed
synchronously when the effect fires, before it can possibly be unmounted
(the single-threaded event loop cannot interleave the cleanup there):
the empty-category short-circuit write, or the loading write before the
fetch. `fetchIssued` records whether `getServicesBySubcategory` was
called. `resolveWrites` are the `setState` calls performed when the fetch
settles; in the source both are preceded by `if (!mounted) return`, so
they are dropped when the component is no longer mounted at resolution
time. -/
structure SubcatEffectRun where
  syncWrites : List SubcatWrite
  fetchIssued : Bool
  resolveWrites : List SubcatWrite
deriving Repr

/-- The effect body of `useServiceSubcategories(categoryId)`. -/
def subcatEffectRunModel (categoryId : String) (outcome : FetchOutcome)
    (mountedAtResolve : Bool) : SubcatEffectRun :=
  if categoryId = "" then
    { syncWrites := [SubcatWrite.setReady []], fetchIssued := false, resolveWrites := [] }
  else
    { syncWrites := [SubcatWrite.setLoading],
      fetchIssued := true,
      resolveWrites :=
        if mountedAtResolve then
          match outcome with
          | FetchOutcome.success rows => [SubcatWrite.setReady (rows.getD [])]
          | FetchOutcome.failure msg => [SubcatWrite.setError msg]
        else [] }

/-- Local state of `useServiceCategories`. -/
structure CatState where
  categories : List Category
  subCategories : List Subcategory
  loading : Bool
  error : Option String
deriving DecidableEq, Repr

/-- Outcome of the awaited `getServiceCategories()` call (nulls already
defaulted to `[]` inside that helper). -/
inductive CatFetchOutcome where
  | success (categories : List Category) (subCategories : List Subcategory)
  | failure (msg : String)
deriving Repr

/-- A `setState` call of the categories hook. -/
inductive CatWrite where
  | setReady (categories : List Category) (subCategories : List Subcategory)
  | setError (msg : String)
deriving DecidableEq, Repr

/-- Semantics of each `setState` call of the categories hook; the error
write keeps the previously held lists (`setState(prev => ...)`). -/
def applyCatWrite : CatWrite → CatState → CatState
  | CatWrite.setReady cats subs, _ =>
    { categories := cats, subCategories := subs, loading := false, error := none }
  | CatWrite.setError msg, s => { s with loading := false, error := some msg }

/-- The writes `useServiceCategories` performs when its fetch settles;
both the success and the failure write are preceded by
`if (!mounted) return` in the source. -/
def catEffectResolveWrites (outcome : CatFetchOutcome) (mountedAtResolve : Bool) :
    List CatWrite :=
  if mountedAtResolve then
    match outcome with
    | CatFetchOutcome.success cats subs => [CatWrite.setReady cats subs]
    | CatFetchOutcome.failure msg => [CatWrite.setError msg]
  else []

/-! ## New-service form state machine (profile page selects, lines
341-390, and the AddServicePage category handler) -/

/-- An input event of the new-service form. Selecting a category also
clears the subcategory in the same `setNewService` call (lines 343-349). -/
inductive FormEvent where
  | setCategory (v : String)
  | setSubcategory (v : String)
  | setDescription (v : String)
  | setRate (v : Rat)
  | setCurrency (v : String)
deriving DecidableEq, Repr

/-- One form event applied to the draft `newService` state. -/
def formStep (s : Service) : FormEvent → Service
  | FormEvent.setCategory v => { s with category_id := v, subcategory_id := "" }
  | FormEvent.setSubcategory v => { s with subcategory_id := v }
  | FormEvent.setDescription v => { s with description := v }
  | FormEvent.setRate v => { s with rate := v }
  | FormEvent.setCurrency v => { s with currency := v }

/-- A sequence of form events applied in order. -/
def formRun (s : Service) (es : List FormEvent) : Service :=
  es.foldl formStep s

/-- Recogniser for category-selection events. -/
def isSetCategory : FormEvent → Bool
  | FormEvent.setCategory _ => true
  | _ => false

/-- `onCategoryChange` of AddServicePage: sets the selected category and
resets the selected subcategory to "" in the same handler. The result is
the new (selectedCategory, selectedSubcategory) pair. -/
def onCategoryChange (categoryId : String) : String × String :=
  (categoryId, "")

/-- Helper: over a run containing no category-selection event, the
category is preserved and the final subcategory is either the initial one
or was set by a subcategory event of the run. -/
theorem formRun_no_setCategory (es : List FormEvent) :
    ∀ s : Service, (∀ e ∈ es, isSetCategory e = false) →
      (formRun s es).category_id = s.category_id ∧
      ((formRun s es).subcategory_id = s.subcategory_id ∨
        FormEvent.setSubcategory (formRun s es).subcategory_id ∈ es) := by
  induction es with
  | nil => exact fun s _ => ⟨rfl, Or.inl rfl⟩
  | cons e rest ih =>
    intro s h
    have he : isSetCategory e = false := h e (List.mem_cons_self e rest)
    have hrest : ∀ x ∈ rest, isSetCategory x = false :=
      fun x hx => h x (List.mem_cons_of_mem e hx)
    have heq : formRun s (e :: rest) = formRun (formStep s e) rest := by
      simp [formRun]
    cases e with
    | setCategory v => simp [isSetCategory] at he
    | setSubcategory v =>
      rcases ih (formStep s (FormEvent.setSubcategory v)) hrest with ⟨h1, h2⟩
      refine ⟨heq ▸ h1, ?_⟩
      rcases h2 with h2 | h2
      · right
        rw [heq, h2]
        exact List.mem_cons_self _ _
      · right
        rw [heq]
        exact List.mem_cons_of_mem _ h2
    | setDescription v =>
      rcases ih (formStep s (FormEvent.setDescription v)) hrest with ⟨h1, h2⟩
      refine ⟨heq ▸ h1, ?_⟩
      rcases h2 with h2 | h2
      · exact Or.inl (heq ▸ h2)
      · exact Or.inr (heq ▸ List.mem_cons_of_mem _ h2)
    | setRate v =>
      rcases ih (formStep s (FormEvent.setRate v)) hrest with ⟨h1, h2⟩
      refine ⟨heq ▸ h1, ?_⟩
      rcases h2 with h2 | h2
      · exact Or.inl (heq ▸ h2)
      · exact Or.inr (heq ▸ List.mem_cons_of_mem _ h2)
    | setCurrency v =>
      rcases ih (formStep s (FormEvent.setCurrency v)) hrest with ⟨h1, h2⟩
      refine ⟨heq ▸ h1, ?_⟩
      rcases h2 with h2 | h2
      · exact Or.inl (heq ▸ h2)
      · exact Or.inr (heq ▸ List.mem_cons_of_mem _ h2)

/-! ## Claims -/

/-- Claim C1, counterexample: with category_id, subcategory_id and
description all non-empty and rate exactly 0, `addService` does NOT accept
the entry: the draft list is unchanged and the error toast is raised,
because the source guard `!newService.rate` treats the number 0 as a
missing field. This refutes the claim that rate 0 passes validation. -/
theorem c1_zero_rate_counterexample :
    (addService []
      ({ id := none, category_id := "c1", subcategory_id := "s1",
         description := "web work", rate := 0, currency := "USD" } : Service)).errorToast
        = true ∧
    (addService []
      ({ id := none, category_id := "c1", subcategory_id := "s1",
         description := "web work", rate := 0, currency := "USD" } : Service)).services
        = [] := by
  constructor <;> rfl

/-- Claim C1, amended: every draft whose category_id, subcategory_id and
description are non-empty but whose rate is 0 is rejected by `addService`:
the draft list and form are unchanged, the error toast is raised, and no
database operation is issued. -/
theorem c1_zero_rate_rejected (services : List Service) (svc : Service)
    (h1 : svc.category_id ≠ "") (h2 : svc.subcategory_id ≠ "")
    (h3 : svc.description ≠ "") (h4 : svc.rate = 0) :
    addService services svc =
      { services := services, newService := svc, errorToast := true, dbOps := [] } := by
  simp [addService, h4]

/-- Witness for C1's amended theorem at a concrete zero-rate draft. -/
theorem c1_zero_rate_rejected_witness :
    addService [emptyNewService]
      ({ id := none, category_id := "c1", subcategory_id := "s1",
         description := "web work", rate := 0, currency := "USD" } : Service) =
      { services := [emptyNewService],
        newService := { id := none, category_id := "c1", subcategory_id := "s1",
                        description := "web work", rate := 0, currency := "USD" },
        errorToast := true, dbOps := [] } :=
  c1_zero_rate_rejected [emptyNewService] _
    (by decide) (by decide) (by decide) rfl

/-- Claim C2: whenever at least one required field of the draft is missing
or empty (an empty category_id, subcategory_id or description, or a zero
rate), `addService` rejects the submission before any gateway call: the
draft list is unchanged, the form is not reset, no database insert or
update is issued, and the error toast is raised. -/
theorem c2_missing_fields_rejected (services : List Service) (svc : Service)
    (h : svc.category_id = "" ∨ svc.subcategory_id = "" ∨
         svc.description = "" ∨ svc.rate = 0) :
    addService services svc =
      { services := services, newService := svc, errorToast := true, dbOps := [] } := by
  simp [addService, h]

/-- Witness for C2 at a draft with an empty category. -/
theorem c2_missing_fields_rejected_witness :
    addService []
      ({ id := none, category_id := "", subcategory_id := "s1",
         description := "web work", rate := 5, currency := "USD" } : Service) =
      { services := [],
        newService := { id := none, category_id := "", subcategory_id := "s1",
                        description := "web work", rate := 5, currency := "USD" },
        errorToast := true, dbOps := [] } :=
  c2_missing_fields_rejected [] _ (Or.inl rfl)

/-- Claim C3, counterexample: `supabaseDb.getUser` uses `.single()`, so for
a user id with no matching row it returns null data with a NON-null error
(the zero-rows error), refuting the claim that its error is null there. -/
theorem c3_getUser_zero_rows_counterexample :
    getUser ([] : List UserRow) "u1" = (none, some DbError.noRows) ∧
    (getUser ([] : List UserRow) "u1").2 ≠ none := by
  constructor <;> decide

/-- Claim C3, amended: for a user id with no matching row, the profile
page's fetch (which uses `.maybeSingle()`) returns null data with a null
error and the page then renders empty profile fields; `supabaseDb.getUser`
however uses `.single()` and returns null data with the zero-rows error. -/
theorem c3_zero_rows_tolerance (table : List UserRow) (uid : String)
    (h : eqId table uid = []) :
    profileFetch table uid = (none, none) ∧
    profileFieldsAfterFetch (profileFetch table uid).1 = ("", "", "") ∧
    getUser table uid = (none, some DbError.noRows) := by
  unfold profileFetch getUser
  rw [h]
  exact ⟨rfl, rfl, rfl⟩

/-- Witness for C3's amended theorem: a one-row table not containing the
queried id. -/
theorem c3_zero_rows_tolerance_witness :
    eqId [({ id := "u2", name := "n", email := "e", bio := "b" } : UserRow)] "u1" = [] ∧
    profileFetch [({ id := "u2", name := "n", email := "e", bio := "b" } : UserRow)] "u1"
      = (none, none) :=
  ⟨by decide,
   (c3_zero_rows_tolerance [{ id := "u2", name := "n", email := "e", bio := "b" }] "u1"
      (by decide)).1⟩

/-- Helper: when the gateway returns no error on any operation, the save
loop issues exactly one operation per draft entry, in order, and throws
nothing. -/
theorem runSaveLoop_all_ok (gw : DbOp → Option String) (uid : String)
    (hg : ∀ op, gw op = none) (services : List Service) :
    runSaveLoop gw uid services =
      (services.map (fun s =>
        match s.id with
        | some i => DbOp.updateService i s.category_id s.subcategory_id
            s.description s.rate s.currency
        | none => DbOp.insertService uid s.category_id s.subcategory_id
            s.description s.rate s.currency), none) := by
  induction services with
  | nil => rfl
  | cons s rest ih => simp [runSaveLoop, hg, ih]

/-- Claim C4: with an acting user present and every gateway call
succeeding, `handleSaveServices` persists every draft entry exactly once
and in order — an update keyed on the entry's id for every entry with an
id, an insert carrying the acting user's id for every entry without one —
and reports success. -/
theorem c4_bulk_save_each_once (gw : DbOp → Option String) (uid : String)
    (services : List Service) (hg : ∀ op, gw op = none) :
    handleSaveServices gw (some uid) services =
      (services.map (fun s =>
        match s.id with
        | some i => DbOp.updateService i s.category_id s.subcategory_id
            s.description s.rate s.currency
        | none => DbOp.insertService uid s.category_id s.subcategory_id
            s.description s.rate s.currency), true) := by
  simp [handleSaveServices, runSaveLoop_all_ok gw uid hg services]

/-- Witness for C4 on a two-entry draft list, one entry with an id and one
without, under an always-succeeding gateway. -/
theorem c4_bulk_save_each_once_witness :
    handleSaveServices (fun _ => none) (some "u1")
      [({ id := some "svc9", category_id := "c1", subcategory_id := "s1",
          description := "old", rate := 10, currency := "USD" } : Service),
       ({ id := none, category_id := "c2", subcategory_id := "s2",
          description := "new", rate := 20, currency := "EUR" } : Service)] =
      ([DbOp.updateService "svc9" "c1" "s1" "old" 10 "USD",
        DbOp.insertService "u1" "c2" "s2" "new" 20 "EUR"], true) :=
  c4_bulk_save_each_once (fun _ => none) "u1" _ (fun _ => rfl)

/-- Claim C5: invoking the subcategory hook's effect with an empty
category id transitions directly to the ready state — an empty subcategory
list, loading off, and a null error — with no network call issued and no
deferred resolution write, for every fetch outcome, mount status, and
starting state. -/
theorem c5_empty_category_short_circuit (outcome : FetchOutcome)
    (mountedAtResolve : Bool) (s : SubcatState) :
    (subcatEffectRunModel "" outcome mountedAtResolve).fetchIssued = false ∧
    (subcatEffectRunModel "" outcome mountedAtResolve).resolveWrites = [] ∧
    ((subcatEffectRunModel "" outcome mountedAtResolve).syncWrites ++
      (subcatEffectRunModel "" outcome mountedAtResolve).resolveWrites).foldl
        (fun st w => applySubcatWrite w st) s =
      { subCategories := [], loading := false, error := none } :=
  ⟨rfl, rfl, rfl⟩

/-- Claim C6: each Auth Gateway operation, for every provider and input,
returns exactly a pair whose first component is the result-or-null and
whose second is the error-or-null of the provider outcome; every operation
is a total function of the provider outcome, so nothing is thrown across
the gateway boundary. -/
theorem c6_auth_gateway_result_pairs (p : AuthProvider)
    (email password : String) (upd : Option String) :
    supabaseAuth.signUp p email password =
      ((p.signUpWith email password).1, (p.signUpWith email password).2) ∧
    supabaseAuth.signIn p email password =
      ((p.signInWithPassword email password).1, (p.signInWithPassword email password).2) ∧
    supabaseAuth.signOut p = (none, p.signOutSession) ∧
    supabaseAuth.getCurrentUser p = (p.getUserData.1.user, p.getUserData.2) ∧
    supabaseAuth.updateProfile p upd =
      ((p.updateUserMeta upd).1, (p.updateUserMeta upd).2) :=
  ⟨rfl, rfl, rfl, rfl, rfl⟩

/-- Claim C7: when a hook's component is unmounted while its fetch is in
flight, the mount-guard check at each resolution write suppresses every
state mutation: for both hooks, the list of writes applied after the
unmount is empty and the hook state is left unchanged, for every category
id and every fetch outcome. -/
theorem c7_unmount_guard_suppresses_writes (categoryId : String)
    (outcome : FetchOutcome) (catOutcome : CatFetchOutcome)
    (s1 : SubcatState) (s2 : CatState) :
    (subcatEffectRunModel categoryId outcome false).resolveWrites = [] ∧
    ((subcatEffectRunModel categoryId outcome false).resolveWrites).foldl
      (fun st w => applySubcatWrite w st) s1 = s1 ∧
    catEffectResolveWrites catOutcome false = [] ∧
    (catEffectResolveWrites catOutcome false).foldl
      (fun st w => applyCatWrite w st) s2 = s2 := by
  by_cases hc : categoryId = "" <;>
    simp [subcatEffectRunModel, catEffectResolveWrites, hc]

/-- Claim C8: for every valid submission (all three strings non-empty and
a non-zero rate), `addService` appends exactly the submitted draft at the
end of the list — one more entry than before — without an error toast, and
the displayed names of the new entry are resolved by id lookup in the
loaded reference lists, yielding "" when the id is not found and the
matched row's name when it is. -/
theorem c8_add_service_appends (services : List Service) (svc : Service)
    (cats : List Category) (subs : List Subcategory)
    (h1 : svc.category_id ≠ "") (h2 : svc.subcategory_id ≠ "")
    (h3 : svc.description ≠ "") (h4 : svc.rate ≠ 0) :
    (addService services svc).services = services ++ [svc] ∧
    (addService services svc).services.length = services.length + 1 ∧
    (addService services svc).errorToast = false ∧
    (cats.find? (fun c => c.id == svc.category_id) = none →
      getCategoryName cats svc.category_id = "") ∧
    (∀ c, cats.find? (fun c0 => c0.id == svc.category_id) = some c →
      getCategoryName cats svc.category_id = c.name) ∧
    (subs.find? (fun s0 => s0.id == svc.subcategory_id) = none →
      getSubcategoryName subs svc.subcategory_id = "") ∧
    (∀ s0, subs.find? (fun x => x.id == svc.subcategory_id) = some s0 →
      getSubcategoryName subs svc.subcategory_id = s0.name) := by
  refine ⟨?_, ?_, ?_, ?_, ?_, ?_, ?_⟩
  · simp [addService, h1, h2, h3, h4]
  · simp [addService, h1, h2, h3, h4]
  · simp [addService, h1, h2, h3, h4]
  · intro hfind
    simp [getCategoryName, hfind]
  · intro c hfind
    by_cases hn : c.name = "" <;> simp [getCategoryName, hfind, hn]
  · intro hfind
    simp [getSubcategoryName, hfind]
  · intro s0 hfind
    by_cases hn : s0.name = "" <;> simp [getSubcategoryName, hfind, hn]

/-- Witness for C8: a concrete valid draft appended to an empty list, with
its category name resolved from a one-row reference list. -/
theorem c8_add_service_appends_witness :
    (addService []
      ({ id := none, category_id := "c1", subcategory_id := "s1",
         description := "frontend work", rate := 50, currency := "USD" } : Service)).services =
      [{ id := none, category_id := "c1", subcategory_id := "s1",
         description := "frontend work", rate := 50, currency := "USD" }] ∧
    getCategoryName [({ id := "c1", name := "Web Development" } : Category)] "c1" =
      "Web Development" := by
  have h := c8_add_service_appends []
    ({ id := none, category_id := "c1", subcategory_id := "s1",
       description := "frontend work", rate := 50, currency := "USD" } : Service)
    [({ id := "c1", name := "Web Development" } : Category)] []
    (by decide) (by decide) (by decide) (by decide)
  exact ⟨h.1, h.2.2.2.2.1 { id := "c1", name := "Web Development" } (by decide)⟩

/-- Claim C9: selecting a category resets the selected subcategory to ""
in the same step, in both the profile page's select handler and the
AddServicePage handler; consequently, after a category selection followed
by any events none of which selects a category, a non-empty final
subcategory must have been chosen by a subcategory event of that suffix,
while the selected category is still the one chosen — the subcategory
choice never outlives a category change. -/
theorem c9_subcategory_reset_invariant (s : Service) (c : String)
    (es : List FormEvent) (h : ∀ e ∈ es, isSetCategory e = false) :
    (formStep s (FormEvent.setCategory c)).subcategory_id = "" ∧
    (∀ cid, onCategoryChange cid = (cid, "")) ∧
    ((formRun (formStep s (FormEvent.setCategory c)) es).subcategory_id ≠ "" →
      FormEvent.setSubcategory
          (formRun (formStep s (FormEvent.setCategory c)) es).subcategory_id ∈ es ∧
        (formRun (formStep s (FormEvent.setCategory c)) es).category_id = c) := by
  refine ⟨rfl, fun _ => rfl, fun hne => ?_⟩
  rcases formRun_no_setCategory es (formStep s (FormEvent.setCategory c)) h with ⟨h1, h2⟩
  refine ⟨?_, h1⟩
  rcases h2 with h2 | h2
  · exact absurd h2 hne
  · exact h2

/-- Witness for C9: after selecting category "c1" and then subcategory
"s1", the non-empty subcategory was set by an event of the suffix and the
category is still "c1". -/
theorem c9_subcategory_reset_invariant_witness :
    FormEvent.setSubcategory
        (formRun (formStep emptyNewService (FormEvent.setCategory "c1"))
          [FormEvent.setSubcategory "s1"]).subcategory_id ∈
      [FormEvent.setSubcategory "s1"] ∧
    (formRun (formStep emptyNewService (FormEvent.setCategory "c1"))
        [FormEvent.setSubcategory "s1"]).category_id = "c1" :=
  (c9_subcategory_reset_invariant emptyNewService "c1" [FormEvent.setSubcategory "s1"]
    (by decide)).2.2 (by decide)

/-- Claim C10: with an acting user present and succeeding gateway calls,
submitting the profile form with name, email and bio all empty issues no
database update and no auth update yet still reports success and navigates
away; and for any submission with at least one non-empty field, the
database payload contains exactly the non-empty fields. -/
theorem c10_profile_submit_frame (u name email bio : String)
    (h : ¬(name = "" ∧ email = "" ∧ bio = "")) :
    handleSubmit (some u) "" "" "" =
      { dbUpdate := none, authUpdate := none,
        successToast := true, navigatedHome := true } ∧
    (handleSubmit (some u) name email bio).dbUpdate =
      some { name := if name = "" then none else some name,
             email := if email = "" then none else some email,
             bio := if bio = "" then none else some bio } := by
  constructor
  · simp [handleSubmit, buildProfileUpdates]
  · by_cases hn : name = "" <;> by_cases he : email = "" <;> by_cases hb : bio = "" <;>
      simp [handleSubmit, buildProfileUpdates, hn, he, hb] at h ⊢

/-- Witness for C10: a bio-only submission updates only the bio field, and
the all-empty submission issues no updates while still succeeding. -/
theorem c10_profile_submit_frame_witness :
    handleSubmit (some "u1") "" "" "" =
      { dbUpdate := none, authUpdate := none,
        successToast := true, navigatedHome := true } ∧
    (handleSubmit (some "u1") "" "" "about me").dbUpdate =
      some { name := none, email := none, bio := some "about me" } := by
  have h := c10_profile_submit_frame "u1" "" "" "about me" (by simp)
  exact ⟨h.1, by simpa using h.2⟩

end VibeApp
